import Mathlib

/-!
Shallow embedding of the `packet` package (src/net/packet/ip4.go and
src/net/packet/icmp4.go): IPv4 / ICMPv4 header marshaling into
caller-supplied byte buffers, with the RFC1071 Internet checksum.

Byte buffers are `List Nat` (each element one byte); Go's in-place
mutation of a caller-supplied slice is modelled by state passing: a
marshal operation takes the buffer and returns the pair
(error result, buffer after the call).  Machine-integer casts such as
`uint8(x)` are modelled by explicit `% 256` at the cast site.
-/


namespace Packet

/-- Modelled from the spec: the byte-order codec (§4.2), Go helper `put16`
declared outside src/.  Writes the 16-bit value `v` big-endian at
indices `i`, `i+1`. -/
def put16 (buf : List Nat) (i : Nat) (v : Nat) : List Nat :=
  (buf.set i ((v >>> 8) % 256)).set (i + 1) (v % 256)

/-- Modelled from the spec: the byte-order codec (§4.2), Go helper `put32`
declared outside src/.  Writes the 32-bit value `v` big-endian at
indices `i`..`i+3`. -/
def put32 (buf : List Nat) (i : Nat) (v : Nat) : List Nat :=
  ((((buf.set i ((v >>> 24) % 256)).set (i + 1) ((v >>> 16) % 256)).set
    (i + 2) ((v >>> 8) % 256)).set (i + 3) (v % 256))

/-- Modelled from the spec: the byte-order codec (§4.2), Go helper `get32`
declared outside src/.  Reads a 32-bit big-endian value from the first
four bytes. -/
def get32 (b : List Nat) : Nat :=
  b.getD 0 0 * 16777216 + b.getD 1 0 * 65536 + b.getD 2 0 * 256 + b.getD 3 0

/-- Modelled from the spec: the carry-folding loop of the Internet checksum
(§4.1): "folds 32-bit carry overflow into the low 16 bits repeatedly until
no carry remains".  The loop is bounded by an explicit fuel argument so the
definition stays structural; `foldCarry` passes fuel `ac`, which is proven
sufficient (`foldCarryAux_lt` below shows no carry remains). -/
def foldCarryAux : Nat → Nat → Nat
  | 0, ac => ac
  | fuel + 1, ac => if ac < 65536 then ac else foldCarryAux fuel ((ac >>> 16) + ac % 65536)

/-- Modelled from the spec: carry folding of the Internet checksum (§4.1),
run with provably sufficient fuel. -/
def foldCarry (ac : Nat) : Nat := foldCarryAux ac ac

/-- Modelled from the spec: the word summation of the Internet checksum
(§4.1): "sums successive big-endian 16-bit words (odd trailing byte
zero-padded)". -/
def wordSum16 : List Nat → Nat
  | [] => 0
  | [b1] => b1 * 256
  | b1 :: b2 :: rest => (b1 * 256 + b2) + wordSum16 rest

/-- Modelled from the spec: the RFC1071 Internet checksum engine (§4.1), Go
helper `ipChecksum` declared outside src/.  Sums big-endian 16-bit words,
folds the carry, and returns the one's complement of the 16-bit result
(`65535 - x` is the 16-bit one's complement of `x` for `x < 65536`). -/
def ipChecksum (b : List Nat) : Nat := 65535 - foldCarry (wordSum16 b)

/-- Modelled from the spec: the two marshal error kinds (§7); the Go error
values `errSmallBuffer` (BufferTooSmall) and `errLargePacket`
(PacketTooLarge) are declared outside src/. -/
inductive MarshalError where
  | errSmallBuffer
  | errLargePacket
deriving DecidableEq

/-- Modelled from the spec: the fixed maximum packet length (§4.3:
"implementer chooses an MTU-class bound, e.g. 65535"); the Go constant
`maxPacketLength` is declared outside src/. -/
def maxPacketLength : Nat := 65535

/-- IP protocol numbers (`IP4Proto` constants from src/net/packet/ip4.go),
modelled as plain naturals since `IP4Proto` is a `uint8`. -/
def Unknown : Nat := 0x00

def ICMP : Nat := 0x01

def IGMP : Nat := 0x02

def ICMPv6 : Nat := 0x3a

def TCP : Nat := 0x06

def UDP : Nat := 0x11

def Fragment : Nat := 0xFF

def ipHeaderLength : Nat := 20

/-- Embedding of IP4Header from src/net/packet/ip4.go.  Field types in Go are
`IP4Proto` (uint8), `uint16`, `IP4` (uint32), `IP4` (uint32); all are
modelled as `Nat`, with the machine-width casts applied at the points
where the Go code casts. -/
structure IP4Header where
  IPProto : Nat
  IPID : Nat
  SrcIP : Nat
  DstIP : Nat
deriving DecidableEq

def IP4Header.Len (_ : IP4Header) : Nat := ipHeaderLength

/-- Embedding of IP4Header.Marshal from src/net/packet/ip4.go.  Returns the Go error
result paired with the buffer after the call (Go mutates `buf` in place). -/
def IP4Header.Marshal (h : IP4Header) (buf : List Nat) : Option MarshalError × List Nat :=
  if buf.length < ipHeaderLength then (some .errSmallBuffer, buf)
  else if buf.length > maxPacketLength then (some .errLargePacket, buf)
  else
    let buf := buf.set 0 (0x40 ||| (ipHeaderLength >>> 2))
    let buf := buf.set 1 0x00
    let buf := put16 buf 2 (buf.length % 65536)
    let buf := put16 buf 4 h.IPID
    let buf := put16 buf 6 0
    let buf := buf.set 8 64
    let buf := buf.set 9 (h.IPProto % 256)
    let buf := put16 buf 10 0
    let buf := put32 buf 12 h.SrcIP
    let buf := put32 buf 16 h.DstIP
    let buf := put16 buf 10 (ipChecksum (buf.take 20))
    (none, buf)

/-- Embedding of IP4Header.MarshalPseudo from src/net/packet/ip4.go. -/
def IP4Header.MarshalPseudo (h : IP4Header) (buf : List Nat) : Option MarshalError × List Nat :=
  if buf.length < ipHeaderLength then (some .errSmallBuffer, buf)
  else if buf.length > maxPacketLength then (some .errLargePacket, buf)
  else
    let length := buf.length - ipHeaderLength
    let buf := put32 buf 8 h.SrcIP
    let buf := put32 buf 12 h.DstIP
    let buf := buf.set 16 0x0
    let buf := buf.set 17 (h.IPProto % 256)
    let buf := put16 buf 18 length
    (none, buf)

/-- Embedding of IP4Header.ToResponse from src/net/packet/ip4.go.  The Go method
mutates its receiver through a pointer; modelled as a function returning
the updated header.  Go's bitwise complement `^x` on `uint16` is
`x ^^^ 0xFFFF`. -/
def IP4Header.ToResponse (h : IP4Header) : IP4Header :=
  { h with SrcIP := h.DstIP, DstIP := h.SrcIP, IPID := h.IPID ^^^ 0xFFFF }

/-- ICMP type constants from src/net/packet/icmp4.go (`ICMP4Type` is a
`uint8`). -/
def ICMP4EchoReply : Nat := 0x00

def ICMP4EchoRequest : Nat := 0x08

def ICMP4Unreachable : Nat := 0x03

def ICMP4TimeExceeded : Nat := 0x0b

def ICMP4NoCode : Nat := 0

def icmpHeaderLength : Nat := 4

def icmpAllHeadersLength : Nat := ipHeaderLength + icmpHeaderLength

/-- Embedding of ICMP4Header from src/net/packet/icmp4.go: embeds an `IP4Header`
(Go struct embedding becomes `extends`).  The Go field `Type` is a
reserved word in Lean, hence `Type'`. -/
structure ICMP4Header extends IP4Header where
  Type' : Nat
  Code : Nat
deriving DecidableEq

def ICMP4Header.Len (_ : ICMP4Header) : Nat := icmpAllHeadersLength

/-- Embedding of ICMP4Header.Marshal from src/net/packet/icmp4.go.  The Go code
forces the embedded `IPProto` to ICMP on its value-receiver copy, writes
Type and Code, delegates to `IP4Header.Marshal` discarding its error
result (only the buffer mutation is kept, hence `.snd`), then writes the
whole-buffer checksum at bytes 22-23. -/
def ICMP4Header.Marshal (h : ICMP4Header) (buf : List Nat) : Option MarshalError × List Nat :=
  if buf.length < icmpAllHeadersLength then (some .errSmallBuffer, buf)
  else if buf.length > maxPacketLength then (some .errLargePacket, buf)
  else
    let h := { h with IPProto := ICMP }
    let buf := buf.set 20 (h.Type' % 256)
    let buf := buf.set 21 (h.Code % 256)
    let buf := (IP4Header.Marshal h.toIP4Header buf).snd
    let buf := put16 buf 22 (ipChecksum buf)
    (none, buf)

/-- Embedding of ICMP4Header.ToResponse from src/net/packet/icmp4.go. -/
def ICMP4Header.ToResponse (h : ICMP4Header) : ICMP4Header :=
  { h with Type' := ICMP4EchoReply, Code := ICMP4NoCode,
           toIP4Header := h.toIP4Header.ToResponse }

/-- Models the Go standard library's `net.IP.To4`: returns the 4-byte
form of an IPv4 address (a 4-byte slice, or the low 4 bytes of a 16-byte
IPv4-mapped slice `::ffff:a.b.c.d`), and `nil` (here `none`) otherwise. -/
def To4 (ip : List Nat) : Option (List Nat) :=
  if ip.length = 4 then some ip
  else if ip.length = 16 ∧ ip.take 10 = List.replicate 10 0
          ∧ ip.getD 10 0 = 0xff ∧ ip.getD 11 0 = 0xff then
    some ((ip.drop 12).take 4)
  else none

/-- Embedding of NewIP4 from src/net/packet/ip4.go.  The Go function panics when
`To4` fails (non-IPv4 input); the panic is modelled as `none`. -/
def NewIP4 (b : List Nat) : Option Nat :=
  match To4 b with
  | none => none
  | some b4 => some (get32 b4)



theorem ip4_marshal_cons (h : IP4Header)
    (a0 a1 a2 a3 a4 a5 a6 a7 a8 a9 b0 b1 b2 b3 b4 b5 b6 b7 b8 b9 : Nat)
    (rest : List Nat) (hlen : rest.length ≤ 65515) :
    IP4Header.Marshal h (a0 :: a1 :: a2 :: a3 :: a4 :: a5 :: a6 :: a7 :: a8 :: a9 ::
        b0 :: b1 :: b2 :: b3 :: b4 :: b5 :: b6 :: b7 :: b8 :: b9 :: rest) =
      (none,
        69 :: 0 :: ((rest.length + 20) % 65536) >>> 8 % 256 :: (rest.length + 20) % 65536 % 256 ::
        h.IPID >>> 8 % 256 :: h.IPID % 256 :: 0 :: 0 :: 64 :: h.IPProto % 256 ::
        (ipChecksum
          [69, 0, ((rest.length + 20) % 65536) >>> 8 % 256, (rest.length + 20) % 65536 % 256,
            h.IPID >>> 8 % 256, h.IPID % 256, 0, 0, 64, h.IPProto % 256, 0, 0,
            h.SrcIP >>> 24 % 256, h.SrcIP >>> 16 % 256, h.SrcIP >>> 8 % 256, h.SrcIP % 256,
            h.DstIP >>> 24 % 256, h.DstIP >>> 16 % 256, h.DstIP >>> 8 % 256, h.DstIP % 256]) >>> 8 % 256 ::
        (ipChecksum
          [69, 0, ((rest.length + 20) % 65536) >>> 8 % 256, (rest.length + 20) % 65536 % 256,
            h.IPID >>> 8 % 256, h.IPID % 256, 0, 0, 64, h.IPProto % 256, 0, 0,
            h.SrcIP >>> 24 % 256, h.SrcIP >>> 16 % 256, h.SrcIP >>> 8 % 256, h.SrcIP % 256,
            h.DstIP >>> 24 % 256, h.DstIP >>> 16 % 256, h.DstIP >>> 8 % 256, h.DstIP % 256]) % 256 ::
        h.SrcIP >>> 24 % 256 :: h.SrcIP >>> 16 % 256 :: h.SrcIP >>> 8 % 256 :: h.SrcIP % 256 ::
        h.DstIP >>> 24 % 256 :: h.DstIP >>> 16 % 256 :: h.DstIP >>> 8 % 256 :: h.DstIP % 256 :: rest) := by
  have h1 : ¬((a0 :: a1 :: a2 :: a3 :: a4 :: a5 :: a6 :: a7 :: a8 :: a9 ::
      b0 :: b1 :: b2 :: b3 :: b4 :: b5 :: b6 :: b7 :: b8 :: b9 :: rest).length < ipHeaderLength) := by
    simp [ipHeaderLength]
  have h2 : ¬((a0 :: a1 :: a2 :: a3 :: a4 :: a5 :: a6 :: a7 :: a8 :: a9 ::
      b0 :: b1 :: b2 :: b3 :: b4 :: b5 :: b6 :: b7 :: b8 :: b9 :: rest).length > maxPacketLength) := by
    simp only [List.length_cons, maxPacketLength]
    omega
  unfold IP4Header.Marshal
  rw [if_neg h1, if_neg h2]
  simp only [put16, put32, List.length_set]
  rw [show (a0 :: a1 :: a2 :: a3 :: a4 :: a5 :: a6 :: a7 :: a8 :: a9 ::
      b0 :: b1 :: b2 :: b3 :: b4 :: b5 :: b6 :: b7 :: b8 :: b9 :: rest).length = rest.length + 20 from by simp]
  simp [ipHeaderLength]


theorem foldCarryAux_lt (fuel : Nat) : ∀ ac, ac ≤ 65535 * (fuel + 1) → foldCarryAux fuel ac < 65536 := by
  induction fuel with
  | zero =>
    intro ac h
    simp only [foldCarryAux]
    omega
  | succ n ih =>
    intro ac h
    simp only [foldCarryAux]
    by_cases hlt : ac < 65536
    · simp [hlt]
    · rw [if_neg hlt]
      apply ih
      have hd : ac >>> 16 = ac / 65536 := by
        rw [Nat.shiftRight_eq_div_pow]
      rw [hd]
      omega

theorem foldCarry_lt (ac : Nat) : foldCarry ac < 65536 := by
  apply foldCarryAux_lt
  omega

theorem foldCarryAux_mod (fuel : Nat) : ∀ ac, foldCarryAux fuel ac % 65535 = ac % 65535 := by
  induction fuel with
  | zero => intro ac; simp [foldCarryAux]
  | succ n ih =>
    intro ac
    simp only [foldCarryAux]
    by_cases hlt : ac < 65536
    · simp [hlt]
    · rw [if_neg hlt, ih]
      have hd : ac >>> 16 = ac / 65536 := by
        rw [Nat.shiftRight_eq_div_pow]
      rw [hd]
      omega

theorem foldCarry_mod (ac : Nat) : foldCarry ac % 65535 = ac % 65535 :=
  foldCarryAux_mod ac ac

theorem foldCarryAux_pos (fuel : Nat) : ∀ ac, 0 < ac → 0 < foldCarryAux fuel ac := by
  induction fuel with
  | zero => intro ac h; simpa [foldCarryAux] using h
  | succ n ih =>
    intro ac h
    simp only [foldCarryAux]
    by_cases hlt : ac < 65536
    · simpa [hlt] using h
    · rw [if_neg hlt]
      apply ih
      have hd : ac >>> 16 = ac / 65536 := by
        rw [Nat.shiftRight_eq_div_pow]
      rw [hd]
      omega

theorem foldCarry_reinsert (s : Nat) (hs : 0 < s) :
    foldCarry (s + (65535 - foldCarry s)) = 65535 := by
  have h1 : foldCarry s < 65536 := foldCarry_lt s
  have h2 : foldCarry s % 65535 = s % 65535 := foldCarry_mod s
  have hx1 : foldCarry (s + (65535 - foldCarry s)) < 65536 :=
    foldCarry_lt (s + (65535 - foldCarry s))
  have hx2 : foldCarry (s + (65535 - foldCarry s)) % 65535 =
      (s + (65535 - foldCarry s)) % 65535 := foldCarry_mod (s + (65535 - foldCarry s))
  have hx3 : 0 < foldCarry (s + (65535 - foldCarry s)) := by
    apply foldCarryAux_pos
    omega
  omega



theorem exists_cons20 (l : List Nat) (hl : 20 ≤ l.length) :
    ∃ a0 a1 a2 a3 a4 a5 a6 a7 a8 a9 b0 b1 b2 b3 b4 b5 b6 b7 b8 b9 rest,
      l = a0 :: a1 :: a2 :: a3 :: a4 :: a5 :: a6 :: a7 :: a8 :: a9 ::
          b0 :: b1 :: b2 :: b3 :: b4 :: b5 :: b6 :: b7 :: b8 :: b9 :: rest := by
  rcases l with _ | ⟨a0, l⟩; · simp at hl
  rcases l with _ | ⟨a1, l⟩; · simp at hl
  rcases l with _ | ⟨a2, l⟩; · simp at hl
  rcases l with _ | ⟨a3, l⟩; · simp at hl
  rcases l with _ | ⟨a4, l⟩; · simp at hl
  rcases l with _ | ⟨a5, l⟩; · simp at hl
  rcases l with _ | ⟨a6, l⟩; · simp at hl
  rcases l with _ | ⟨a7, l⟩; · simp at hl
  rcases l with _ | ⟨a8, l⟩; · simp at hl
  rcases l with _ | ⟨a9, l⟩; · simp at hl
  rcases l with _ | ⟨b0, l⟩; · simp at hl
  rcases l with _ | ⟨b1, l⟩; · simp at hl
  rcases l with _ | ⟨b2, l⟩; · simp at hl
  rcases l with _ | ⟨b3, l⟩; · simp at hl
  rcases l with _ | ⟨b4, l⟩; · simp at hl
  rcases l with _ | ⟨b5, l⟩; · simp at hl
  rcases l with _ | ⟨b6, l⟩; · simp at hl
  rcases l with _ | ⟨b7, l⟩; · simp at hl
  rcases l with _ | ⟨b8, l⟩; · simp at hl
  rcases l with _ | ⟨b9, l⟩; · simp at hl
  exact ⟨a0, a1, a2, a3, a4, a5, a6, a7, a8, a9,
         b0, b1, b2, b3, b4, b5, b6, b7, b8, b9, l, rfl⟩

theorem exists_cons4 (l : List Nat) (hl : 4 ≤ l.length) :
    ∃ a0 a1 a2 a3 rest, l = a0 :: a1 :: a2 :: a3 :: rest := by
  rcases l with _ | ⟨a0, l⟩; · simp at hl
  rcases l with _ | ⟨a1, l⟩; · simp at hl
  rcases l with _ | ⟨a2, l⟩; · simp at hl
  rcases l with _ | ⟨a3, l⟩; · simp at hl
  exact ⟨a0, a1, a2, a3, l, rfl⟩

theorem ipChecksum_reinsert20 (A B C D P S1 S2 S3 S4 E1 E2 E3 E4 : Nat) :
    ipChecksum [69, 0, A, B, C, D, 0, 0, 64, P,
      ipChecksum [69, 0, A, B, C, D, 0, 0, 64, P, 0, 0, S1, S2, S3, S4, E1, E2, E3, E4] >>> 8 % 256,
      ipChecksum [69, 0, A, B, C, D, 0, 0, 64, P, 0, 0, S1, S2, S3, S4, E1, E2, E3, E4] % 256,
      S1, S2, S3, S4, E1, E2, E3, E4] = 0 := by
  set L := [69, 0, A, B, C, D, 0, 0, 64, P, 0, 0, S1, S2, S3, S4, E1, E2, E3, E4] with hL
  set ck := ipChecksum L with hck
  have hck2 : ck = 65535 - foldCarry (wordSum16 L) := by rw [hck]; rfl
  have hckle : ck ≤ 65535 := by omega
  have hdiv : ck >>> 8 = ck / 256 := by rw [Nat.shiftRight_eq_div_pow]
  have hsum : wordSum16 [69, 0, A, B, C, D, 0, 0, 64, P, ck >>> 8 % 256, ck % 256,
      S1, S2, S3, S4, E1, E2, E3, E4] = wordSum16 L + ck := by
    rw [hL]
    simp only [wordSum16]
    rw [hdiv]
    omega
  have hpos : 0 < wordSum16 L := by
    rw [hL]
    simp only [wordSum16]
    omega
  unfold ipChecksum
  rw [hsum, hck2, foldCarry_reinsert (wordSum16 L) hpos]



/-- C5: for every buffer of length in [20, max] and every field assignment,
after a successful IP4Header.Marshal, recomputing the RFC1071 Internet checksum
over bytes [0,20) of the buffer, with the embedded checksum left in place at
bytes 10-11, yields 0. -/
theorem ip4_marshal_checksum_self_verifies (h : IP4Header) (buf : List Nat)
    (hlo : 20 ≤ buf.length) (hhi : buf.length ≤ maxPacketLength) :
    ∃ out, IP4Header.Marshal h buf = (none, out) ∧ ipChecksum (out.take 20) = 0 := by
  obtain ⟨a0, a1, a2, a3, a4, a5, a6, a7, a8, a9, b0, b1, b2, b3, b4, b5, b6, b7, b8, b9, rest, rfl⟩ :=
    exists_cons20 buf hlo
  have hr : rest.length ≤ 65515 := by
    simp only [List.length_cons, maxPacketLength] at hhi
    omega
  rw [ip4_marshal_cons h a0 a1 a2 a3 a4 a5 a6 a7 a8 a9 b0 b1 b2 b3 b4 b5 b6 b7 b8 b9 rest hr]
  refine ⟨_, rfl, ?_⟩
  simp only [List.take_succ_cons, List.take_zero]
  exact ipChecksum_reinsert20 _ _ _ _ _ _ _ _ _ _ _ _ _



theorem ipChecksum_le (b : List Nat) : ipChecksum b ≤ 65535 := by
  unfold ipChecksum
  omega

/-- C3: a successful IP4Header.Marshal writes exactly the IPv4 wire layout into
bytes 0-19: byte0 = 0x45, byte1 = 0x00, bytes 2-3 = len(buf) big-endian,
bytes 4-5 = IPID big-endian, bytes 6-7 = 0, byte8 = 64 (TTL), byte9 = the
protocol number, bytes 10-11 = the header checksum (the Internet checksum of
the 20 header bytes with the checksum field zeroed), bytes 12-15 = SrcIP
big-endian, bytes 16-19 = DstIP big-endian. -/
theorem ip4_marshal_wire_layout (h : IP4Header) (buf : List Nat)
    (hlo : 20 ≤ buf.length) (hhi : buf.length ≤ maxPacketLength)
    (hp : h.IPProto < 256) (hid : h.IPID < 65536)
    (hs : h.SrcIP < 4294967296) (hd : h.DstIP < 4294967296) :
    ∃ out, IP4Header.Marshal h buf = (none, out) ∧
      out.length = buf.length ∧
      out.getD 0 0 = 0x45 ∧
      out.getD 1 0 = 0x00 ∧
      out.getD 2 0 = buf.length / 256 ∧
      out.getD 3 0 = buf.length % 256 ∧
      out.getD 4 0 = h.IPID / 256 ∧
      out.getD 5 0 = h.IPID % 256 ∧
      out.getD 6 0 = 0 ∧
      out.getD 7 0 = 0 ∧
      out.getD 8 0 = 64 ∧
      out.getD 9 0 = h.IPProto ∧
      out.getD 10 0 = ipChecksum (((out.take 20).set 10 0).set 11 0) / 256 ∧
      out.getD 11 0 = ipChecksum (((out.take 20).set 10 0).set 11 0) % 256 ∧
      out.getD 12 0 = h.SrcIP / 16777216 ∧
      out.getD 13 0 = h.SrcIP / 65536 % 256 ∧
      out.getD 14 0 = h.SrcIP / 256 % 256 ∧
      out.getD 15 0 = h.SrcIP % 256 ∧
      out.getD 16 0 = h.DstIP / 16777216 ∧
      out.getD 17 0 = h.DstIP / 65536 % 256 ∧
      out.getD 18 0 = h.DstIP / 256 % 256 ∧
      out.getD 19 0 = h.DstIP % 256 ∧
      out.drop 20 = buf.drop 20 := by
  obtain ⟨a0, a1, a2, a3, a4, a5, a6, a7, a8, a9, b0, b1, b2, b3, b4, b5, b6, b7, b8, b9, rest, rfl⟩ :=
    exists_cons20 buf hlo
  have hr : rest.length ≤ 65515 := by
    simp only [List.length_cons, maxPacketLength] at hhi
    omega
  rw [ip4_marshal_cons h a0 a1 a2 a3 a4 a5 a6 a7 a8 a9 b0 b1 b2 b3 b4 b5 b6 b7 b8 b9 rest hr]
  refine ⟨_, rfl, ?_⟩
  have hdiv8 : ∀ x : Nat, x >>> 8 = x / 256 := fun x => by rw [Nat.shiftRight_eq_div_pow]
  have hdiv16 : ∀ x : Nat, x >>> 16 = x / 65536 := fun x => by rw [Nat.shiftRight_eq_div_pow]
  have hdiv24 : ∀ x : Nat, x >>> 24 = x / 16777216 := fun x => by rw [Nat.shiftRight_eq_div_pow]
  simp [hdiv8, hdiv16, hdiv24]
  have hckb := ipChecksum_le [69, 0, (rest.length + 20) % 65536 / 256 % 256,
    (rest.length + 20) % 65536 % 256, h.IPID / 256 % 256, h.IPID % 256, 0, 0, 64, h.IPProto % 256,
    0, 0, h.SrcIP / 16777216 % 256, h.SrcIP / 65536 % 256, h.SrcIP / 256 % 256, h.SrcIP % 256,
    h.DstIP / 16777216 % 256, h.DstIP / 65536 % 256, h.DstIP / 256 % 256, h.DstIP % 256]
  omega



theorem icmp_marshal_cons (h : ICMP4Header)
    (a0 a1 a2 a3 a4 a5 a6 a7 a8 a9 b0 b1 b2 b3 b4 b5 b6 b7 b8 b9 c0 c1 c2 c3 : Nat)
    (rest : List Nat) (hlen : rest.length ≤ 65511) :
    ICMP4Header.Marshal h (a0 :: a1 :: a2 :: a3 :: a4 :: a5 :: a6 :: a7 :: a8 :: a9 ::
        b0 :: b1 :: b2 :: b3 :: b4 :: b5 :: b6 :: b7 :: b8 :: b9 :: c0 :: c1 :: c2 :: c3 :: rest) =
      (none, 69 :: 0 :: ((rest.length + 24) % 65536) >>> 8 % 256 :: (rest.length + 24) % 65536 % 256 :: h.IPID >>> 8 % 256 :: h.IPID % 256 :: 0 :: 0 :: 64 :: 1 :: (ipChecksum [69, 0, ((rest.length + 24) % 65536) >>> 8 % 256, (rest.length + 24) % 65536 % 256, h.IPID >>> 8 % 256, h.IPID % 256, 0, 0, 64, 1, 0, 0, h.SrcIP >>> 24 % 256, h.SrcIP >>> 16 % 256, h.SrcIP >>> 8 % 256, h.SrcIP % 256, h.DstIP >>> 24 % 256, h.DstIP >>> 16 % 256, h.DstIP >>> 8 % 256, h.DstIP % 256]) >>> 8 % 256 :: (ipChecksum [69, 0, ((rest.length + 24) % 65536) >>> 8 % 256, (rest.length + 24) % 65536 % 256, h.IPID >>> 8 % 256, h.IPID % 256, 0, 0, 64, 1, 0, 0, h.SrcIP >>> 24 % 256, h.SrcIP >>> 16 % 256, h.SrcIP >>> 8 % 256, h.SrcIP % 256, h.DstIP >>> 24 % 256, h.DstIP >>> 16 % 256, h.DstIP >>> 8 % 256, h.DstIP % 256]) % 256 :: h.SrcIP >>> 24 % 256 :: h.SrcIP >>> 16 % 256 :: h.SrcIP >>> 8 % 256 :: h.SrcIP % 256 :: h.DstIP >>> 24 % 256 :: h.DstIP >>> 16 % 256 :: h.DstIP >>> 8 % 256 :: h.DstIP % 256 :: h.Type' % 256 :: h.Code % 256 :: (ipChecksum (69 :: 0 :: ((rest.length + 24) % 65536) >>> 8 % 256 :: (rest.length + 24) % 65536 % 256 :: h.IPID >>> 8 % 256 :: h.IPID % 256 :: 0 :: 0 :: 64 :: 1 :: (ipChecksum [69, 0, ((rest.length + 24) % 65536) >>> 8 % 256, (rest.length + 24) % 65536 % 256, h.IPID >>> 8 % 256, h.IPID % 256, 0, 0, 64, 1, 0, 0, h.SrcIP >>> 24 % 256, h.SrcIP >>> 16 % 256, h.SrcIP >>> 8 % 256, h.SrcIP % 256, h.DstIP >>> 24 % 256, h.DstIP >>> 16 % 256, h.DstIP >>> 8 % 256, h.DstIP % 256]) >>> 8 % 256 :: (ipChecksum [69, 0, ((rest.length + 24) % 65536) >>> 8 % 256, (rest.length + 24) % 65536 % 256, h.IPID >>> 8 % 256, h.IPID % 256, 0, 0, 64, 1, 0, 0, h.SrcIP >>> 24 % 256, h.SrcIP >>> 16 % 256, h.SrcIP >>> 8 % 256, h.SrcIP % 256, h.DstIP >>> 24 % 256, h.DstIP >>> 16 % 256, h.DstIP >>> 8 % 256, h.DstIP % 256]) % 256 :: h.SrcIP >>> 24 % 256 :: h.SrcIP >>> 16 % 256 :: h.SrcIP >>> 8 % 256 :: h.SrcIP % 256 :: h.DstIP >>> 24 % 256 :: h.DstIP >>> 16 % 256 :: h.DstIP >>> 8 % 256 :: h.DstIP % 256 :: h.Type' % 256 :: h.Code % 256 :: c2 :: c3 :: rest)) >>> 8 % 256 :: (ipChecksum (69 :: 0 :: ((rest.length + 24) % 65536) >>> 8 % 256 :: (rest.length + 24) % 65536 % 256 :: h.IPID >>> 8 % 256 :: h.IPID % 256 :: 0 :: 0 :: 64 :: 1 :: (ipChecksum [69, 0, ((rest.length + 24) % 65536) >>> 8 % 256, (rest.length + 24) % 65536 % 256, h.IPID >>> 8 % 256, h.IPID % 256, 0, 0, 64, 1, 0, 0, h.SrcIP >>> 24 % 256, h.SrcIP >>> 16 % 256, h.SrcIP >>> 8 % 256, h.SrcIP % 256, h.DstIP >>> 24 % 256, h.DstIP >>> 16 % 256, h.DstIP >>> 8 % 256, h.DstIP % 256]) >>> 8 % 256 :: (ipChecksum [69, 0, ((rest.length + 24) % 65536) >>> 8 % 256, (rest.length + 24) % 65536 % 256, h.IPID >>> 8 % 256, h.IPID % 256, 0, 0, 64, 1, 0, 0, h.SrcIP >>> 24 % 256, h.SrcIP >>> 16 % 256, h.SrcIP >>> 8 % 256, h.SrcIP % 256, h.DstIP >>> 24 % 256, h.DstIP >>> 16 % 256, h.DstIP >>> 8 % 256, h.DstIP % 256]) % 256 :: h.SrcIP >>> 24 % 256 :: h.SrcIP >>> 16 % 256 :: h.SrcIP >>> 8 % 256 :: h.SrcIP % 256 :: h.DstIP >>> 24 % 256 :: h.DstIP >>> 16 % 256 :: h.DstIP >>> 8 % 256 :: h.DstIP % 256 :: h.Type' % 256 :: h.Code % 256 :: c2 :: c3 :: rest)) % 256 :: rest) := by
  have h1 : ¬((a0 :: a1 :: a2 :: a3 :: a4 :: a5 :: a6 :: a7 :: a8 :: a9 ::
      b0 :: b1 :: b2 :: b3 :: b4 :: b5 :: b6 :: b7 :: b8 :: b9 :: c0 :: c1 :: c2 :: c3 :: rest).length
        < icmpAllHeadersLength) := by
    simp [icmpAllHeadersLength, ipHeaderLength, icmpHeaderLength]
  have h2 : ¬((a0 :: a1 :: a2 :: a3 :: a4 :: a5 :: a6 :: a7 :: a8 :: a9 ::
      b0 :: b1 :: b2 :: b3 :: b4 :: b5 :: b6 :: b7 :: b8 :: b9 :: c0 :: c1 :: c2 :: c3 :: rest).length
        > maxPacketLength) := by
    simp only [List.length_cons, maxPacketLength]
    omega
  unfold ICMP4Header.Marshal
  rw [if_neg h1, if_neg h2]
  simp only [List.set_cons_zero, List.set_cons_succ]
  rw [ip4_marshal_cons _ a0 a1 a2 a3 a4 a5 a6 a7 a8 a9 b0 b1 b2 b3 b4 b5 b6 b7 b8 b9
      (h.Type' % 256 :: h.Code % 256 :: c2 :: c3 :: rest) (by simp; omega)]
  rw [show (h.Type' % 256 :: h.Code % 256 :: c2 :: c3 :: rest).length = rest.length + 4 from by simp]
  simp [put16, ICMP]



/-- C1: for every ICMP4Header value and every buffer of length in [24, max], a
successful ICMP4Header.Marshal writes protocol number 1 (ICMP) at byte 9 of the
buffer, regardless of the IPProto value the caller set in the embedded IP4Header. -/
theorem icmp4_marshal_forces_proto_icmp (h : ICMP4Header) (buf : List Nat)
    (hlo : 24 ≤ buf.length) (hhi : buf.length ≤ maxPacketLength) :
    ∃ out, ICMP4Header.Marshal h buf = (none, out) ∧ out.getD 9 0 = 1 := by
  obtain ⟨a0, a1, a2, a3, a4, a5, a6, a7, a8, a9, b0, b1, b2, b3, b4, b5, b6, b7, b8, b9, r20, hbuf⟩ :=
    exists_cons20 buf (by omega)
  have hr4 : 4 ≤ r20.length := by
    subst hbuf
    simp only [List.length_cons] at hlo
    omega
  obtain ⟨c0, c1, c2, c3, rest, hr⟩ := exists_cons4 r20 hr4
  subst hr
  subst hbuf
  have hrest : rest.length ≤ 65511 := by
    simp only [List.length_cons, maxPacketLength] at hhi
    omega
  rw [icmp_marshal_cons h a0 a1 a2 a3 a4 a5 a6 a7 a8 a9 b0 b1 b2 b3 b4 b5 b6 b7 b8 b9
      c0 c1 c2 c3 rest hrest]
  exact ⟨_, rfl, by simp⟩

/-- C9: under ICMP4Header.Marshal's own length precondition (24 <= len <= max),
the delegated inner IP4Header.Marshal call, applied to the buffer with Type and
Code already written and the proto forced to ICMP, returns no error; so the
discarded error result never hides a failure. -/
theorem icmp4_inner_marshal_never_errors (h : ICMP4Header) (buf : List Nat)
    (hlo : 24 ≤ buf.length) (hhi : buf.length ≤ maxPacketLength) :
    (IP4Header.Marshal { h.toIP4Header with IPProto := ICMP }
      ((buf.set 20 (h.Type' % 256)).set 21 (h.Code % 256))).fst = none := by
  have hl : ((buf.set 20 (h.Type' % 256)).set 21 (h.Code % 256)).length = buf.length := by
    simp
  have hhi2 : buf.length ≤ 65535 := by
    simpa [maxPacketLength] using hhi
  unfold IP4Header.Marshal
  rw [if_neg (by rw [hl]; simp only [ipHeaderLength]; omega),
      if_neg (by rw [hl]; simp only [maxPacketLength]; omega)]

/-- C10: ICMP4Header.Marshal ignores the caller-set embedded IPProto:
marshaling a header whose IPProto was replaced by any value produces exactly
the same result, so the forced IPProto = ICMP is visible only in the output
buffer; the operation is a pure function of a value-receiver copy, so the
caller's header value is unchanged by construction. -/
theorem icmp4_marshal_ignores_caller_proto (h : ICMP4Header) (buf : List Nat) (p : Nat) :
    ICMP4Header.Marshal { h with IPProto := p } buf = ICMP4Header.Marshal h buf := by
  cases h with
  | mk ip t c =>
    cases ip
    rfl

/-- C7: IP4Header.ToResponse swaps SrcIP and DstIP, replaces IPID by its
bitwise complement, changes no other field (IPProto is preserved), and applying
it twice restores the original header. -/
theorem ip4_toResponse_involutive (h : IP4Header) :
    h.ToResponse.ToResponse = h ∧
    h.ToResponse.SrcIP = h.DstIP ∧
    h.ToResponse.DstIP = h.SrcIP ∧
    h.ToResponse.IPID = h.IPID ^^^ 65535 ∧
    h.ToResponse.IPProto = h.IPProto := by
  cases h
  refine ⟨?_, ?_, ?_, ?_, ?_⟩ <;>
    simp [IP4Header.ToResponse, Nat.xor_assoc, Nat.xor_self]



/-- C2: for all three marshal operations, errSmallBuffer (BufferTooSmall) is
returned exactly when the buffer is shorter than the header's fixed length (20
for IP4Header.Marshal and MarshalPseudo, 24 for ICMP4Header.Marshal), and
errLargePacket (PacketTooLarge) exactly when it is longer than maxPacketLength;
in both error cases the buffer comes back byte-for-byte unmodified, and
in-range buffers never produce an error. -/
theorem marshal_length_error_cases :
    (∀ (h : IP4Header) (buf : List Nat), buf.length < 20 →
      IP4Header.Marshal h buf = (some .errSmallBuffer, buf)) ∧
    (∀ (h : IP4Header) (buf : List Nat), buf.length > maxPacketLength →
      IP4Header.Marshal h buf = (some .errLargePacket, buf)) ∧
    (∀ (h : IP4Header) (buf : List Nat), 20 ≤ buf.length → buf.length ≤ maxPacketLength →
      (IP4Header.Marshal h buf).fst = none) ∧
    (∀ (h : IP4Header) (buf : List Nat), buf.length < 20 →
      IP4Header.MarshalPseudo h buf = (some .errSmallBuffer, buf)) ∧
    (∀ (h : IP4Header) (buf : List Nat), buf.length > maxPacketLength →
      IP4Header.MarshalPseudo h buf = (some .errLargePacket, buf)) ∧
    (∀ (h : IP4Header) (buf : List Nat), 20 ≤ buf.length → buf.length ≤ maxPacketLength →
      (IP4Header.MarshalPseudo h buf).fst = none) ∧
    (∀ (h : ICMP4Header) (buf : List Nat), buf.length < 24 →
      ICMP4Header.Marshal h buf = (some .errSmallBuffer, buf)) ∧
    (∀ (h : ICMP4Header) (buf : List Nat), buf.length > maxPacketLength →
      ICMP4Header.Marshal h buf = (some .errLargePacket, buf)) ∧
    (∀ (h : ICMP4Header) (buf : List Nat), 24 ≤ buf.length → buf.length ≤ maxPacketLength →
      (ICMP4Header.Marshal h buf).fst = none) := by
  refine ⟨?_, ?_, ?_, ?_, ?_, ?_, ?_, ?_, ?_⟩
  · intro h buf hl
    unfold IP4Header.Marshal
    rw [if_pos (by simp only [ipHeaderLength]; omega)]
  · intro h buf hl
    unfold IP4Header.Marshal
    rw [if_neg (by simp only [ipHeaderLength, maxPacketLength] at hl ⊢; omega),
        if_pos hl]
  · intro h buf h1 h2
    unfold IP4Header.Marshal
    rw [if_neg (by simp only [ipHeaderLength]; omega),
        if_neg (by simp only [maxPacketLength] at h2 ⊢; omega)]
  · intro h buf hl
    unfold IP4Header.MarshalPseudo
    rw [if_pos (by simp only [ipHeaderLength]; omega)]
  · intro h buf hl
    unfold IP4Header.MarshalPseudo
    rw [if_neg (by simp only [ipHeaderLength, maxPacketLength] at hl ⊢; omega),
        if_pos hl]
  · intro h buf h1 h2
    unfold IP4Header.MarshalPseudo
    rw [if_neg (by simp only [ipHeaderLength]; omega),
        if_neg (by simp only [maxPacketLength] at h2 ⊢; omega)]
  · intro h buf hl
    unfold ICMP4Header.Marshal
    rw [if_pos (by simp only [icmpAllHeadersLength, ipHeaderLength, icmpHeaderLength]; omega)]
  · intro h buf hl
    unfold ICMP4Header.Marshal
    rw [if_neg (by simp only [icmpAllHeadersLength, ipHeaderLength, icmpHeaderLength,
          maxPacketLength] at hl ⊢; omega),
        if_pos hl]
  · intro h buf h1 h2
    unfold ICMP4Header.Marshal
    rw [if_neg (by simp only [icmpAllHeadersLength, ipHeaderLength, icmpHeaderLength]; omega),
        if_neg (by simp only [maxPacketLength] at h2 ⊢; omega)]



/-- C4 counterexample: MarshalPseudo does not zero bytes 0-7.  Marshaling into
a 20-byte buffer whose byte 0 is 1 succeeds and leaves byte 0 equal to 1,
contradicting the claim that a successful MarshalPseudo leaves bytes 0-7 zero. -/
theorem marshalPseudo_byte0_not_zeroed :
    (IP4Header.MarshalPseudo ⟨6, 0, 0, 0⟩ (1 :: List.replicate 19 0)).fst = none ∧
    ¬((IP4Header.MarshalPseudo ⟨6, 0, 0, 0⟩ (1 :: List.replicate 19 0)).snd.getD 0 0 = 0) := by
  decide

/-- C4 (amended): a successful MarshalPseudo writes only bytes 8-19 of the
buffer: bytes 8-11 the source address big-endian, bytes 12-15 the destination
address big-endian, byte 16 zero, byte 17 the protocol number and bytes 18-19
equal to len(buf)-20 big-endian, while bytes 0-7 and bytes from 20 on keep
their prior caller-supplied contents. -/
theorem marshalPseudo_pseudo_layout (h : IP4Header) (buf : List Nat)
    (hlo : 20 ≤ buf.length) (hhi : buf.length ≤ maxPacketLength)
    (hp : h.IPProto < 256) (hs : h.SrcIP < 4294967296) (hd : h.DstIP < 4294967296) :
    ∃ out, IP4Header.MarshalPseudo h buf = (none, out) ∧
      out.length = buf.length ∧
      out.take 8 = buf.take 8 ∧
      out.getD 8 0 = h.SrcIP / 16777216 ∧
      out.getD 9 0 = h.SrcIP / 65536 % 256 ∧
      out.getD 10 0 = h.SrcIP / 256 % 256 ∧
      out.getD 11 0 = h.SrcIP % 256 ∧
      out.getD 12 0 = h.DstIP / 16777216 ∧
      out.getD 13 0 = h.DstIP / 65536 % 256 ∧
      out.getD 14 0 = h.DstIP / 256 % 256 ∧
      out.getD 15 0 = h.DstIP % 256 ∧
      out.getD 16 0 = 0 ∧
      out.getD 17 0 = h.IPProto ∧
      out.getD 18 0 = (buf.length - 20) / 256 ∧
      out.getD 19 0 = (buf.length - 20) % 256 ∧
      out.drop 20 = buf.drop 20 := by
  obtain ⟨a0, a1, a2, a3, a4, a5, a6, a7, a8, a9, b0, b1, b2, b3, b4, b5, b6, b7, b8, b9, rest, rfl⟩ :=
    exists_cons20 buf hlo
  have hr : rest.length ≤ 65515 := by
    simp only [List.length_cons, maxPacketLength] at hhi
    omega
  unfold IP4Header.MarshalPseudo
  rw [if_neg (by simp only [List.length_cons, ipHeaderLength]; omega),
      if_neg (by simp only [List.length_cons, maxPacketLength]; omega)]
  refine ⟨_, rfl, ?_⟩
  have hdiv8 : ∀ x : Nat, x >>> 8 = x / 256 := fun x => by rw [Nat.shiftRight_eq_div_pow]
  have hdiv16 : ∀ x : Nat, x >>> 16 = x / 65536 := fun x => by rw [Nat.shiftRight_eq_div_pow]
  have hdiv24 : ∀ x : Nat, x >>> 24 = x / 16777216 := fun x => by rw [Nat.shiftRight_eq_div_pow]
  simp [put16, put32, ipHeaderLength, hdiv8, hdiv16, hdiv24]
  omega



theorem shiftRight8_mod (x : Nat) (hx : x ≤ 65535) : x >>> 8 % 256 = x / 256 := by
  have h : x >>> 8 = x / 256 := by rw [Nat.shiftRight_eq_div_pow]
  omega

/-- C6 counterexample: ICMP4Header.Marshal does not zero bytes 22-23 before
summing.  With prior buffer contents 0,1 at bytes 22-23, the checksum actually
written differs from the checksum of the marshaled buffer with bytes 22-23
zeroed, refuting the claim that the checksum field is zero during summation. -/
theorem icmp4_checksum_field_not_zeroed :
    ¬((ICMP4Header.Marshal ⟨⟨0, 0, 0, 0⟩, 8, 0⟩
          [0, 0, 0, 0, 0, 0, 0, 0, 0, 0, 0, 0, 0, 0, 0, 0, 0, 0, 0, 0, 0, 0, 0, 1]).snd.getD 22 0 =
        ipChecksum (((ICMP4Header.Marshal ⟨⟨0, 0, 0, 0⟩, 8, 0⟩
            [0, 0, 0, 0, 0, 0, 0, 0, 0, 0, 0, 0, 0, 0, 0, 0, 0, 0, 0, 0, 0, 0, 0, 1]).snd.set 22 0).set 23 0) / 256 ∧
      (ICMP4Header.Marshal ⟨⟨0, 0, 0, 0⟩, 8, 0⟩
          [0, 0, 0, 0, 0, 0, 0, 0, 0, 0, 0, 0, 0, 0, 0, 0, 0, 0, 0, 0, 0, 0, 0, 1]).snd.getD 23 0 =
        ipChecksum (((ICMP4Header.Marshal ⟨⟨0, 0, 0, 0⟩, 8, 0⟩
            [0, 0, 0, 0, 0, 0, 0, 0, 0, 0, 0, 0, 0, 0, 0, 0, 0, 0, 0, 0, 0, 0, 0, 1]).snd.set 22 0).set 23 0) % 256) := by
  decide

/-- C6 (amended): a successful ICMP4Header.Marshal writes at bytes 22-23 the
Internet checksum computed over the entire buffer in a state where the IP
header bytes [0,20) are finalized (including the embedded IP checksum), Type
and Code sit at bytes 20-21, and bytes 22-23 hold their prior caller-supplied
contents during the summation (the code never zeroes them). -/
theorem icmp4_checksum_uses_prior_field_bytes (h : ICMP4Header) (buf : List Nat)
    (hlo : 24 ≤ buf.length) (hhi : buf.length ≤ maxPacketLength) :
    ∃ out, ICMP4Header.Marshal h buf = (none, out) ∧
      out.getD 22 0 =
        ipChecksum ((out.set 22 (buf.getD 22 0)).set 23 (buf.getD 23 0)) / 256 ∧
      out.getD 23 0 =
        ipChecksum ((out.set 22 (buf.getD 22 0)).set 23 (buf.getD 23 0)) % 256 := by
  obtain ⟨a0, a1, a2, a3, a4, a5, a6, a7, a8, a9, b0, b1, b2, b3, b4, b5, b6, b7, b8, b9, r20, hbuf⟩ :=
    exists_cons20 buf (by omega)
  have hr4 : 4 ≤ r20.length := by
    subst hbuf
    simp only [List.length_cons] at hlo
    omega
  obtain ⟨c0, c1, c2, c3, rest, hr⟩ := exists_cons4 r20 hr4
  subst hr
  subst hbuf
  have hrest : rest.length ≤ 65511 := by
    simp only [List.length_cons, maxPacketLength] at hhi
    omega
  rw [icmp_marshal_cons h a0 a1 a2 a3 a4 a5 a6 a7 a8 a9 b0 b1 b2 b3 b4 b5 b6 b7 b8 b9
      c0 c1 c2 c3 rest hrest]
  refine ⟨_, rfl, ?_, ?_⟩
  · simp
    exact shiftRight8_mod _ (ipChecksum_le _)
  · simp

/-- C8 counterexample: NewIP4 is not total on all standard-library IP values:
on the 16-byte IPv6 address ::1 the Go function panics because net.IP.To4
returns nil; the panic is modelled as none. -/
theorem newIP4_fails_on_ipv6 : NewIP4 (List.replicate 15 0 ++ [1]) = none := by decide

/-- C8 (amended): NewIP4 succeeds exactly on IPv4 inputs, namely 4-byte slices
and 16-byte IPv4-mapped slices; on every other input the Go function panics.
Checksum computation and ToResponse are total Lean functions by construction. -/
theorem newIP4_isSome_iff_ipv4 (b : List Nat) :
    (NewIP4 b).isSome ↔
      (b.length = 4 ∨ (b.length = 16 ∧ b.take 10 = List.replicate 10 0 ∧
        b.getD 10 0 = 255 ∧ b.getD 11 0 = 255)) := by
  by_cases h1 : b.length = 4
  · simp [NewIP4, To4, h1]
  · by_cases h2 : b.length = 16 ∧ b.take 10 = List.replicate 10 0 ∧
        b.getD 10 0 = 255 ∧ b.getD 11 0 = 255
    · unfold NewIP4 To4
      rw [if_neg h1, if_pos h2]
      exact iff_of_true rfl (Or.inr h2)
    · unfold NewIP4 To4
      rw [if_neg h1, if_neg h2]
      exact iff_of_false (by simp) (fun hc => hc.elim (fun ha => h1 ha) (fun hb => h2 hb))

/-- Witness for C1 at a concrete header and a 24-byte buffer. -/
theorem icmp4_marshal_forces_proto_icmp_witness :
    ∃ out, ICMP4Header.Marshal ⟨⟨6, 7, 8, 9⟩, 8, 0⟩ (List.replicate 24 0) = (none, out) ∧
      out.getD 9 0 = 1 :=
  icmp4_marshal_forces_proto_icmp ⟨⟨6, 7, 8, 9⟩, 8, 0⟩ (List.replicate 24 0)
    (by decide) (by decide)

/-- Witness for C2: each error case and each success case at concrete inputs. -/
theorem marshal_length_error_cases_witness :
    IP4Header.Marshal ⟨6, 2, 3, 4⟩ [1, 2, 3] = (some .errSmallBuffer, [1, 2, 3]) ∧
    IP4Header.Marshal ⟨6, 2, 3, 4⟩ (List.replicate 65536 7) =
      (some .errLargePacket, List.replicate 65536 7) ∧
    (IP4Header.Marshal ⟨6, 2, 3, 4⟩ (List.replicate 20 0)).fst = none ∧
    IP4Header.MarshalPseudo ⟨6, 2, 3, 4⟩ [1, 2, 3] = (some .errSmallBuffer, [1, 2, 3]) ∧
    IP4Header.MarshalPseudo ⟨6, 2, 3, 4⟩ (List.replicate 65536 7) =
      (some .errLargePacket, List.replicate 65536 7) ∧
    (IP4Header.MarshalPseudo ⟨6, 2, 3, 4⟩ (List.replicate 20 0)).fst = none ∧
    ICMP4Header.Marshal ⟨⟨6, 2, 3, 4⟩, 8, 0⟩ [1, 2, 3] = (some .errSmallBuffer, [1, 2, 3]) ∧
    ICMP4Header.Marshal ⟨⟨6, 2, 3, 4⟩, 8, 0⟩ (List.replicate 65536 7) =
      (some .errLargePacket, List.replicate 65536 7) ∧
    (ICMP4Header.Marshal ⟨⟨6, 2, 3, 4⟩, 8, 0⟩ (List.replicate 24 0)).fst = none :=
  ⟨marshal_length_error_cases.1 _ _ (by decide),
   marshal_length_error_cases.2.1 _ _ (by rw [List.length_replicate]; decide),
   marshal_length_error_cases.2.2.1 _ _ (by decide) (by decide),
   marshal_length_error_cases.2.2.2.1 _ _ (by decide),
   marshal_length_error_cases.2.2.2.2.1 _ _ (by rw [List.length_replicate]; decide),
   marshal_length_error_cases.2.2.2.2.2.1 _ _ (by decide) (by decide),
   marshal_length_error_cases.2.2.2.2.2.2.1 _ _ (by decide),
   marshal_length_error_cases.2.2.2.2.2.2.2.1 _ _ (by rw [List.length_replicate]; decide),
   marshal_length_error_cases.2.2.2.2.2.2.2.2 _ _ (by decide) (by decide)⟩

/-- Witness for C3 at a concrete header and a 20-byte buffer. -/
theorem ip4_marshal_wire_layout_witness :
    ∃ out, IP4Header.Marshal ⟨6, 4660, 167772161, 167772162⟩ (List.replicate 20 0) = (none, out) ∧
      out.length = (List.replicate 20 0).length ∧
      out.getD 0 0 = 0x45 ∧
      out.getD 1 0 = 0x00 ∧
      out.getD 2 0 = (List.replicate 20 0).length / 256 ∧
      out.getD 3 0 = (List.replicate 20 0).length % 256 ∧
      out.getD 4 0 = 4660 / 256 ∧
      out.getD 5 0 = 4660 % 256 ∧
      out.getD 6 0 = 0 ∧
      out.getD 7 0 = 0 ∧
      out.getD 8 0 = 64 ∧
      out.getD 9 0 = 6 ∧
      out.getD 10 0 = ipChecksum (((out.take 20).set 10 0).set 11 0) / 256 ∧
      out.getD 11 0 = ipChecksum (((out.take 20).set 10 0).set 11 0) % 256 ∧
      out.getD 12 0 = 167772161 / 16777216 ∧
      out.getD 13 0 = 167772161 / 65536 % 256 ∧
      out.getD 14 0 = 167772161 / 256 % 256 ∧
      out.getD 15 0 = 167772161 % 256 ∧
      out.getD 16 0 = 167772162 / 16777216 ∧
      out.getD 17 0 = 167772162 / 65536 % 256 ∧
      out.getD 18 0 = 167772162 / 256 % 256 ∧
      out.getD 19 0 = 167772162 % 256 ∧
      out.drop 20 = (List.replicate 20 0).drop 20 :=
  ip4_marshal_wire_layout ⟨6, 4660, 167772161, 167772162⟩ (List.replicate 20 0)
    (by decide) (by decide) (by decide) (by decide) (by decide) (by decide)

/-- Witness for C4 (amended) at a concrete header and a 21-byte buffer. -/
theorem marshalPseudo_pseudo_layout_witness :
    ∃ out, IP4Header.MarshalPseudo ⟨6, 2, 167772161, 167772162⟩ (List.replicate 21 0) = (none, out) ∧
      out.length = (List.replicate 21 0).length ∧
      out.take 8 = (List.replicate 21 0).take 8 ∧
      out.getD 8 0 = 167772161 / 16777216 ∧
      out.getD 9 0 = 167772161 / 65536 % 256 ∧
      out.getD 10 0 = 167772161 / 256 % 256 ∧
      out.getD 11 0 = 167772161 % 256 ∧
      out.getD 12 0 = 167772162 / 16777216 ∧
      out.getD 13 0 = 167772162 / 65536 % 256 ∧
      out.getD 14 0 = 167772162 / 256 % 256 ∧
      out.getD 15 0 = 167772162 % 256 ∧
      out.getD 16 0 = 0 ∧
      out.getD 17 0 = 6 ∧
      out.getD 18 0 = ((List.replicate 21 0).length - 20) / 256 ∧
      out.getD 19 0 = ((List.replicate 21 0).length - 20) % 256 ∧
      out.drop 20 = (List.replicate 21 0).drop 20 :=
  marshalPseudo_pseudo_layout ⟨6, 2, 167772161, 167772162⟩ (List.replicate 21 0)
    (by decide) (by decide) (by decide) (by decide) (by decide)

/-- Witness for C5 at a concrete header and a 20-byte buffer. -/
theorem ip4_marshal_checksum_self_verifies_witness :
    ∃ out, IP4Header.Marshal ⟨17, 4660, 167772161, 167772162⟩ (List.replicate 20 0) = (none, out) ∧
      ipChecksum (out.take 20) = 0 :=
  ip4_marshal_checksum_self_verifies ⟨17, 4660, 167772161, 167772162⟩ (List.replicate 20 0)
    (by decide) (by decide)

/-- Witness for C6 (amended) at a concrete header and a 24-byte buffer. -/
theorem icmp4_checksum_uses_prior_field_bytes_witness :
    ∃ out, ICMP4Header.Marshal ⟨⟨0, 1, 2, 3⟩, 8, 0⟩ (List.replicate 24 0) = (none, out) ∧
      out.getD 22 0 = ipChecksum ((out.set 22 ((List.replicate 24 0).getD 22 0)).set 23
        ((List.replicate 24 0).getD 23 0)) / 256 ∧
      out.getD 23 0 = ipChecksum ((out.set 22 ((List.replicate 24 0).getD 22 0)).set 23
        ((List.replicate 24 0).getD 23 0)) % 256 :=
  icmp4_checksum_uses_prior_field_bytes ⟨⟨0, 1, 2, 3⟩, 8, 0⟩ (List.replicate 24 0)
    (by decide) (by decide)

/-- Witness for C9 at a concrete header and a 24-byte buffer. -/
theorem icmp4_inner_marshal_never_errors_witness :
    (IP4Header.Marshal ⟨ICMP, 1, 2, 3⟩ (((List.replicate 24 0).set 20 8).set 21 0)).fst = none :=
  icmp4_inner_marshal_never_errors ⟨⟨6, 1, 2, 3⟩, 8, 0⟩ (List.replicate 24 0)
    (by decide) (by decide)

end Packet
